import Mathlib

/-!
Shallow embedding of `mailchimp3/entities/batches.py` (the `Batches`
endpoint class): submission validation (`create`), the single-job polling
loop (`wait_for_complete`), the multi-job waiter (`wait_for_many`) and the
client-object field updates done by `all` / `get` / `delete`.

Dictionaries with optional keys are modelled as structures with `Option`
fields; a raised Python exception is modelled as an explicit result
constructor; the external HTTP transport is an abstract function argument,
and the number of transport calls made is returned alongside the result.
-/

namespace Mailchimp3

/-- A fetched batch-job snapshot, the subset of the Mailchimp batch status
payload that `wait_for_complete` reads: `status`, `total_operations`,
`errored_operations`, `response_body_url`. -/
structure BatchSnapshot where
  id : String
  status : String
  total_operations : Nat
  errored_operations : Nat
  response_body_url : String
deriving Repr, DecidableEq

/-- One operation dictionary inside the `operations` array of a create
request. `none` models an absent key (Python `'method' not in op`). -/
structure Operation where
  method : Option String
  path : Option String
deriving Repr, DecidableEq

/-- The `data` argument of `Batches.create`: `none` for `operations`
models the key being absent from the dictionary. -/
structure BatchData where
  operations : Option (List Operation)
deriving Repr, DecidableEq

/-- Outcome of `Batches.create`: a raised `KeyError`, a raised
`ValueError`, or reaching the `self._mc_client._post(...)` call. -/
inductive CreateResult where
  | keyError (msg : String)
  | valueError (msg : String)
  | posted
deriving Repr, DecidableEq

/-- The allowed method list from `batches.py` line 49. -/
def allowedMethods : List String := ["GET", "POST", "PUT", "PATCH", "DELETE"]

/-- Message of the `KeyError` raised when `operations` is absent. -/
def missingOperationsMsg : String := "The batch must have operations"

/-- Message of the `KeyError` raised when an operation lacks `method`. -/
def missingMethodMsg : String := "The batch operation must have a method"

/-- Message of the `KeyError` raised when an operation lacks `path`. -/
def missingPathMsg : String := "The batch operation must have a path"

/-- Message of the `ValueError` raised for a disallowed method value;
the offending value is appended, as in the Python `format` call. -/
def invalidMethodMsg (m : String) : String :=
  "The batch operation method must be one of \"GET\", \"POST\", \"PUT\", \"PATCH\", or \"DELETE\", not " ++ m

/-- The per-operation validation loop of `Batches.create` (lines 46-53):
returns the first error raised while scanning the operations in order, or
`none` when the whole list passes. The source checks `method` presence,
then the method value, then `path` presence, for each operation in turn. -/
def validateOps : List Operation → Option CreateResult
  | [] => none
  | op :: rest =>
    match op.method with
    | none => some (CreateResult.keyError missingMethodMsg)
    | some m =>
      if m ∈ allowedMethods then
        match op.path with
        | none => some (CreateResult.keyError missingPathMsg)
        | some _ => validateOps rest
      else
        some (CreateResult.valueError (invalidMethodMsg m))

/-- `Batches.create` (lines 28-54). The second component counts transport
calls: `_post` is reached exactly when validation raises nothing. -/
def create (data : BatchData) : CreateResult × Nat :=
  match data.operations with
  | none => (CreateResult.keyError missingOperationsMsg, 0)
  | some ops =>
    match validateOps ops with
    | some e => (e, 0)
    | none => (CreateResult.posted, 1)

/-- An operation violates validation when `method` is absent, `path` is
absent, or the method value is not one of the five allowed strings. -/
def opViolatesB (op : Operation) : Bool :=
  op.method.isNone || op.path.isNone ||
    (match op.method with
     | some m => !(decide (m ∈ allowedMethods))
     | none => false)

/-- Outcome of `Batches.wait_for_complete`: a normal return of a snapshot,
the raised job-failure `Exception`, or the `UnboundLocalError` raised by
`return batch` when the loop body never ran. -/
inductive WaitResult where
  | ok (batch : BatchSnapshot)
  | jobFailed (msg : String)
  | unboundLocal
deriving Repr, DecidableEq

/-- Result of a `wait_for_complete` call together with the number of
`self.get` fetches performed and the number of `sleep(sleep_secs)` calls
performed. -/
structure WaitTrace where
  result : WaitResult
  fetches : Nat
  sleeps : Nat
deriving Repr, DecidableEq

/-- `sleep_secs = 3` from `wait_for_complete` line 132: the fixed
inter-poll delay, in seconds. -/
def sleep_secs : Nat := 3

/-- Total time slept by a wait, in seconds: each recorded sleep lasts
`sleep_secs`. -/
def totalSleepSecs (t : WaitTrace) : Nat := sleep_secs * t.sleeps

/-- Default value of the `retries` parameter of `wait_for_complete` and
`wait_for_many`. -/
def defaultRetries : Nat := 20

/-- Message of the `Exception` raised when a finished batch has
`errored_operations > 0` (lines 139-142): the errored and total counts,
the batch id and the `response_body_url` of the fetched snapshot. -/
def jobFailedMsg (batch_id : String) (b : BatchSnapshot) : String :=
  toString b.errored_operations ++ "/" ++ toString b.total_operations ++
    " operations failed for batch_id = " ++ batch_id ++ ", details here " ++
    b.response_body_url

/-- Message standing for the `UnboundLocalError` CPython raises when
`return batch` runs with `batch` never assigned (loop body never ran). -/
def unboundLocalMsg : String :=
  "UnboundLocalError: local variable batch referenced before assignment"

/-- The `for _ in range(retries)` loop of `wait_for_complete`
(lines 134-148). `fetch k` is the snapshot returned by the k-th `self.get`
call (0-indexed); the remote service is thus modelled as a pure sequence of
snapshots. `last` is the current value of the Python local `batch` (`none`
before its first assignment), and `fetches` / `sleeps` accumulate the
counts. When the budget runs out, `return batch` returns the last fetched
snapshot, or raises `UnboundLocalError` if there was none. -/
def waitLoop (fetch : Nat → BatchSnapshot) (batch_id : String)
    (last : Option BatchSnapshot) (k fetches sleeps : Nat) :
    Nat → WaitTrace
  | 0 =>
    match last with
    | none => ⟨WaitResult.unboundLocal, fetches, sleeps⟩
    | some b => ⟨WaitResult.ok b, fetches, sleeps⟩
  | remaining + 1 =>
    let b := fetch k
    if b.status = "finished" then
      if b.errored_operations > 0 then
        ⟨WaitResult.jobFailed (jobFailedMsg batch_id b), fetches + 1, sleeps⟩
      else
        ⟨WaitResult.ok b, fetches + 1, sleeps⟩
    else
      waitLoop fetch batch_id (some b) (k + 1) (fetches + 1) (sleeps + 1) remaining

/-- `Batches.wait_for_complete(batch_id, retries)` (lines 123-148),
given the sequence of snapshots the repeated `self.get(batch_id)` calls
would fetch. -/
def wait_for_complete (fetch : Nat → BatchSnapshot) (batch_id : String)
    (retries : Nat) : WaitTrace :=
  waitLoop fetch batch_id none 0 0 0 retries

/-- `str(e)` for the exception a per-job wait raised, or `none` when the
wait returned normally. -/
def waitErrMsg : WaitResult → Option String
  | WaitResult.ok _ => none
  | WaitResult.jobFailed msg => some msg
  | WaitResult.unboundLocal => some unboundLocalMsg

/-- The per-id waits performed by `Batches.wait_for_many` (lines 160-164),
in input order. `fetchFor bid` is the snapshot sequence the polls of job
`bid` observe. -/
def wait_for_many_results (fetchFor : String → Nat → BatchSnapshot)
    (batch_ids : List String) (retries : Nat) : List (String × WaitTrace) :=
  batch_ids.map (fun bid => (bid, wait_for_complete (fetchFor bid) bid retries))

/-- The `failed_batches` list built by `wait_for_many`: the stringified
exception of every per-id wait that raised, in input order. -/
def failed_batches (fetchFor : String → Nat → BatchSnapshot)
    (batch_ids : List String) (retries : Nat) : List String :=
  batch_ids.filterMap
    (fun bid => waitErrMsg (wait_for_complete (fetchFor bid) bid retries).result)

/-- `Batches.wait_for_many` (lines 150-167): `some msg` models the
aggregate `Exception` raised when `failed_batches` is non-empty, `none`
the normal (void) return. -/
def wait_for_many (fetchFor : String → Nat → BatchSnapshot)
    (batch_ids : List String) (retries : Nat) : Option String :=
  let failed := failed_batches fetchFor batch_ids retries
  if failed.length > 0 then
    some (toString failed.length ++ "/" ++ toString batch_ids.length ++
      " batches failed:\n" ++ String.intercalate "\n" failed)
  else
    none

/-- The mutable fields of the `Batches` client object: `endpoint` is set
once in `__init__` and never reassigned; `batch_id` and
`operation_status` are reassigned by `all` / `get` / `delete`. -/
structure BatchesState where
  endpoint : String
  batch_id : Option String
  operation_status : Option String
deriving Repr, DecidableEq

/-- The state `__init__` leaves behind (lines 23-26). -/
def initState : BatchesState := ⟨"batches", none, none⟩

/-- Modelled from the spec: `BaseApi._build_path` is not under `src/`;
per the spec, building HTTP request paths is thin plumbing joining the
endpoint and the given path arguments. -/
def build_path (endpoint : String) (args : List String) : String :=
  String.intercalate "/" (endpoint :: args)

/-- `Batches.get(batch_id, **queryparams)` (lines 94-106). The transport
(`self._mc_client._get`) is an abstract function of the built url and the
query parameters; the pair returned is the client state after the call and
the transport's response. -/
def batches_get {α : Type} (tr : String → List (String × String) → α)
    (st : BatchesState) (batch_id : String) (qp : List (String × String)) :
    BatchesState × α :=
  let st1 := { st with batch_id := some batch_id }
  let st2 := { st1 with operation_status := none }
  (st2, tr (build_path st2.endpoint [batch_id]) qp)

/-- `Batches.delete(batch_id)` (lines 109-121), transport
`self._mc_client._delete`. -/
def batches_delete {α : Type} (tr : String → α)
    (st : BatchesState) (batch_id : String) : BatchesState × α :=
  let st1 := { st with batch_id := some batch_id }
  let st2 := { st1 with operation_status := none }
  (st2, tr (build_path st2.endpoint [batch_id]))

/-- `Batches.all(get_all, **queryparams)` (lines 75-92): resets both
fields to `None`, then calls `self._iterate` or `self._mc_client._get`
depending on `get_all`. -/
def batches_all {α : Type}
    (tr_iterate tr_get : String → List (String × String) → α)
    (st : BatchesState) (get_all : Bool) (qp : List (String × String)) :
    BatchesState × α :=
  let st2 := { st with batch_id := none, operation_status := none }
  (st2,
    if get_all then tr_iterate (build_path st2.endpoint []) qp
    else tr_get (build_path st2.endpoint []) qp)

/-- A snapshot that is still in progress. -/
def snapPending : BatchSnapshot :=
  ⟨"B1", "pending", 5, 0, "https://x/pending"⟩

/-- A finished snapshot with no errored operations. -/
def snapFinOk : BatchSnapshot :=
  ⟨"B1", "finished", 5, 0, "https://x/ok"⟩

/-- A finished snapshot with errored operations. -/
def snapFinErr : BatchSnapshot :=
  ⟨"B2", "finished", 7, 2, "https://x/err"⟩

/-- A remote in which job B finishes cleanly while every other job
finishes with errored operations, at the first poll. -/
def fetchForABC : String → Nat → BatchSnapshot :=
  fun bid _ => if bid = "B" then snapFinOk else snapFinErr

lemma validateOps_eq_none_iff (ops : List Operation) :
    validateOps ops = none ↔ ops.any opViolatesB = false := by
  induction ops with
  | nil => simp [validateOps]
  | cons op rest ih =>
    cases hm : op.method with
    | none => simp [validateOps, hm, opViolatesB]
    | some m =>
      by_cases hmem : m ∈ allowedMethods
      · cases hp : op.path with
        | none => simp [validateOps, hm, hmem, hp, opViolatesB]
        | some p => simp [validateOps, hm, hmem, hp, opViolatesB, ih]
      · simp [validateOps, hm, hmem, opViolatesB]

lemma validateOps_some_cases (ops : List Operation) (e : CreateResult)
    (h : validateOps ops = some e) :
    (e = CreateResult.keyError missingMethodMsg ∧ ∃ op ∈ ops, op.method = none) ∨
    (e = CreateResult.keyError missingPathMsg ∧ ∃ op ∈ ops, op.path = none) ∨
    (∃ m, e = CreateResult.valueError (invalidMethodMsg m) ∧ m ∉ allowedMethods ∧
      ∃ op ∈ ops, op.method = some m) := by
  induction ops with
  | nil => simp [validateOps] at h
  | cons op rest ih =>
    cases hm : op.method with
    | none =>
      simp only [validateOps, hm, Option.some.injEq] at h
      exact Or.inl ⟨h.symm, op, List.mem_cons_self op rest, hm⟩
    | some m =>
      by_cases hmem : m ∈ allowedMethods
      · cases hp : op.path with
        | none =>
          simp only [validateOps, hm, hp, if_pos hmem, Option.some.injEq] at h
          exact Or.inr (Or.inl ⟨h.symm, op, List.mem_cons_self op rest, hp⟩)
        | some p =>
          simp only [validateOps, hm, hp, if_pos hmem] at h
          rcases ih h with h1 | h2 | h3
          · exact Or.inl ⟨h1.1, by
              obtain ⟨o, ho, hmo⟩ := h1.2
              exact ⟨o, List.mem_cons_of_mem op ho, hmo⟩⟩
          · exact Or.inr (Or.inl ⟨h2.1, by
              obtain ⟨o, ho, hpo⟩ := h2.2
              exact ⟨o, List.mem_cons_of_mem op ho, hpo⟩⟩)
          · obtain ⟨m', he, hm', o, ho, hmo⟩ := h3
            exact Or.inr (Or.inr ⟨m', he, hm', o, List.mem_cons_of_mem op ho, hmo⟩)
      · simp only [validateOps, hm, if_neg hmem, Option.some.injEq] at h
        exact Or.inr (Or.inr ⟨m, h.symm, hmem, op, List.mem_cons_self op rest, hm⟩)

lemma waitLoop_finished (fetch : Nat → BatchSnapshot) (bid : String) :
    ∀ (n r k : Nat) (last : Option BatchSnapshot) (f s : Nat),
    n < r →
    (∀ j < n, (fetch (k + j)).status ≠ "finished") →
    (fetch (k + n)).status = "finished" →
    waitLoop fetch bid last k f s r =
      if (fetch (k + n)).errored_operations > 0 then
        ⟨WaitResult.jobFailed (jobFailedMsg bid (fetch (k + n))), f + n + 1, s + n⟩
      else
        ⟨WaitResult.ok (fetch (k + n)), f + n + 1, s + n⟩ := by
  intro n
  induction n with
  | zero =>
    intro r k last f s hr hbef hfin
    match r, hr with
    | r + 1, _ =>
      simp only [Nat.add_zero] at hfin ⊢
      simp [waitLoop, hfin]
  | succ n ih =>
    intro r k last f s hr hbef hfin
    match r, hr with
    | r + 1, hr =>
      have h0 : ¬(fetch k).status = "finished" := by
        simpa using hbef 0 (by omega)
      have hk : k + 1 + n = k + (n + 1) := by omega
      have hbef' : ∀ j < n, (fetch (k + 1 + j)).status ≠ "finished" := by
        intro j hj
        have hjj := hbef (j + 1) (by omega)
        have e : k + (j + 1) = k + 1 + j := by omega
        rw [e] at hjj
        exact hjj
      have hfin' : (fetch (k + 1 + n)).status = "finished" := by
        rw [hk]; exact hfin
      have hrec := ih r (k + 1) (some (fetch k)) (f + 1) (s + 1) (by omega) hbef' hfin'
      rw [hk] at hrec
      have e1 : f + 1 + n + 1 = f + (n + 1) + 1 := by omega
      have e2 : s + 1 + n = s + (n + 1) := by omega
      rw [e1, e2] at hrec
      simpa [waitLoop, h0] using hrec

lemma waitLoop_exhaust (fetch : Nat → BatchSnapshot) (bid : String) :
    ∀ (r : Nat), 1 ≤ r → ∀ (k : Nat) (last : Option BatchSnapshot) (f s : Nat),
    (∀ j < r, (fetch (k + j)).status ≠ "finished") →
    waitLoop fetch bid last k f s r =
      ⟨WaitResult.ok (fetch (k + (r - 1))), f + r, s + r⟩ := by
  intro r
  induction r with
  | zero => intro hr; omega
  | succ r ih =>
    intro _ k last f s hbef
    have h0 : ¬(fetch k).status = "finished" := by
      simpa using hbef 0 (by omega)
    rcases Nat.eq_zero_or_pos r with h | h
    · subst h
      simp [waitLoop, h0]
    · have hbef' : ∀ j < r, (fetch (k + 1 + j)).status ≠ "finished" := by
        intro j hj
        have hjj := hbef (j + 1) (by omega)
        have e : k + (j + 1) = k + 1 + j := by omega
        rw [e] at hjj
        exact hjj
      have hrec := ih h (k + 1) (some (fetch k)) (f + 1) (s + 1) hbef'
      have e1 : k + 1 + (r - 1) = k + (r + 1 - 1) := by omega
      have e2 : f + 1 + r = f + (r + 1) := by omega
      have e3 : s + 1 + r = s + (r + 1) := by omega
      rw [e1, e2, e3] at hrec
      simpa [waitLoop, h0] using hrec

/-- C1: for every job id whose fetched snapshot reaches status `finished`
with `errored_operations > 0` at the first finished poll (index `k`,
0-based) within the retry budget, `wait_for_complete` raises a job-failure
error whose message carries the exact `errored_operations` and
`total_operations` counts and the `response_body_url` of that last fetched
snapshot, and does not return the snapshot. -/
theorem wait_finished_with_errors_raises (fetch : Nat → BatchSnapshot)
    (batch_id : String) (retries k : Nat) (hk : k < retries)
    (hbefore : ∀ j < k, (fetch j).status ≠ "finished")
    (hfin : (fetch k).status = "finished")
    (herr : (fetch k).errored_operations > 0) :
    wait_for_complete fetch batch_id retries =
      ⟨WaitResult.jobFailed (jobFailedMsg batch_id (fetch k)), k + 1, k⟩ ∧
    jobFailedMsg batch_id (fetch k) =
      toString (fetch k).errored_operations ++ "/" ++
        toString (fetch k).total_operations ++
        " operations failed for batch_id = " ++ batch_id ++
        ", details here " ++ (fetch k).response_body_url ∧
    ∀ b, (wait_for_complete fetch batch_id retries).result ≠ WaitResult.ok b := by
  have h := waitLoop_finished fetch batch_id k retries 0 none 0 0 hk
    (by simpa using hbefore) (by simpa using hfin)
  simp only [Nat.zero_add] at h
  rw [if_pos herr] at h
  refine ⟨h, rfl, ?_⟩
  intro b
  rw [show wait_for_complete fetch batch_id retries = waitLoop fetch batch_id none 0 0 0 retries from rfl, h]
  simp

/-- Witness for C1: a job whose very first fetch is finished with 2 of 7
operations errored. -/
theorem wait_finished_with_errors_raises_witness :
    wait_for_complete (fun _ => snapFinErr) "B2" defaultRetries =
      ⟨WaitResult.jobFailed (jobFailedMsg "B2" snapFinErr), 1, 0⟩ :=
  (wait_finished_with_errors_raises (fun _ => snapFinErr) "B2" defaultRetries 0
    (by decide) (fun j hj => absurd hj (by omega)) rfl (by decide)).1

/-- C6: for every job id whose fetched snapshot reaches status `finished`
with `errored_operations == 0` at the first finished poll (index `k`,
0-based, so the (k+1)-th fetch) within the retry budget,
`wait_for_complete` returns that finished snapshot immediately: exactly
k+1 fetches in total and no sleep after the final fetch (k sleeps). -/
theorem wait_finished_success_returns (fetch : Nat → BatchSnapshot)
    (batch_id : String) (retries k : Nat) (hk : k < retries)
    (hbefore : ∀ j < k, (fetch j).status ≠ "finished")
    (hfin : (fetch k).status = "finished")
    (herr : (fetch k).errored_operations = 0) :
    wait_for_complete fetch batch_id retries =
      ⟨WaitResult.ok (fetch k), k + 1, k⟩ := by
  have h := waitLoop_finished fetch batch_id k retries 0 none 0 0 hk
    (by simpa using hbefore) (by simpa using hfin)
  simp only [Nat.zero_add] at h
  rw [if_neg (by omega)] at h
  exact h

/-- Witness for C6: a job finished without errors at the first fetch. -/
theorem wait_finished_success_returns_witness :
    wait_for_complete (fun _ => snapFinOk) "B1" defaultRetries =
      ⟨WaitResult.ok snapFinOk, 1, 0⟩ :=
  wait_finished_success_returns (fun _ => snapFinOk) "B1" defaultRetries 0
    (by decide) (fun j hj => absurd hj (by omega)) rfl rfl

/-- C3: for every job id whose fetched snapshot never has status
`finished` during the retry budget of N polls (N ≥ 1), `wait_for_complete`
returns the last fetched non-terminal snapshot as-is, without raising any
error, after exactly N fetches. -/
theorem wait_exhausted_returns_last (fetch : Nat → BatchSnapshot)
    (batch_id : String) (retries : Nat) (hr : 1 ≤ retries)
    (hbefore : ∀ j < retries, (fetch j).status ≠ "finished") :
    wait_for_complete fetch batch_id retries =
      ⟨WaitResult.ok (fetch (retries - 1)), retries, retries⟩ ∧
    (fetch (retries - 1)).status ≠ "finished" ∧
    ∀ msg, (wait_for_complete fetch batch_id retries).result ≠
      WaitResult.jobFailed msg := by
  have h := waitLoop_exhaust fetch batch_id retries hr 0 none 0 0
    (by simpa using hbefore)
  simp only [Nat.zero_add] at h
  refine ⟨h, hbefore (retries - 1) (by omega), ?_⟩
  intro msg
  rw [show wait_for_complete fetch batch_id retries = waitLoop fetch batch_id none 0 0 0 retries from rfl, h]
  simp

/-- Witness for C3: a job that stays pending for both polls of a budget of
2 retries. -/
theorem wait_exhausted_returns_last_witness :
    wait_for_complete (fun _ => snapPending) "B1" 2 =
      ⟨WaitResult.ok snapPending, 2, 2⟩ :=
  (wait_exhausted_returns_last (fun _ => snapPending) "B1" 2 (by omega)
    (fun j hj => by show snapPending.status ≠ "finished"; decide)).1

/-- C8: with `retries = 0` (the embedding of Python `retries <= 0`, for
which `range(retries)` is empty) `wait_for_complete` performs no fetch,
and its final `return batch` raises `UnboundLocalError` instead of
returning a snapshot. -/
theorem wait_zero_retries_unbound (fetch : Nat → BatchSnapshot)
    (batch_id : String) :
    wait_for_complete fetch batch_id 0 =
      ⟨WaitResult.unboundLocal, 0, 0⟩ := rfl

/-- C10: on the retry-exhaustion path `wait_for_complete` sleeps after
every fetch including the final one — N retries incur exactly N sleeps of
`sleep_secs = 3` seconds — and a sleep is skipped only when a fetch
observes status `finished` (then sleeps = k, fetches = k + 1). -/
theorem wait_sleeps_after_every_fetch (fetch : Nat → BatchSnapshot)
    (batch_id : String) (retries : Nat) :
    (1 ≤ retries → (∀ j < retries, (fetch j).status ≠ "finished") →
      (wait_for_complete fetch batch_id retries).sleeps = retries ∧
      (wait_for_complete fetch batch_id retries).fetches = retries ∧
      totalSleepSecs (wait_for_complete fetch batch_id retries) = 3 * retries) ∧
    (∀ k, k < retries → (∀ j < k, (fetch j).status ≠ "finished") →
      (fetch k).status = "finished" →
      (wait_for_complete fetch batch_id retries).sleeps = k ∧
      (wait_for_complete fetch batch_id retries).fetches = k + 1) := by
  constructor
  · intro hr hbefore
    have h := waitLoop_exhaust fetch batch_id retries hr 0 none 0 0
      (by simpa using hbefore)
    simp only [Nat.zero_add] at h
    rw [show wait_for_complete fetch batch_id retries = waitLoop fetch batch_id none 0 0 0 retries from rfl, h]
    refine ⟨rfl, rfl, ?_⟩
    simp [totalSleepSecs, sleep_secs, Nat.mul_comm]
  · intro k hk hbefore hfin
    have h := waitLoop_finished fetch batch_id k retries 0 none 0 0 hk
      (by simpa using hbefore) (by simpa using hfin)
    simp only [Nat.zero_add] at h
    rw [show wait_for_complete fetch batch_id retries = waitLoop fetch batch_id none 0 0 0 retries from rfl, h]
    rcases Nat.eq_zero_or_pos (fetch k).errored_operations with h0 | h0
    · rw [if_neg (by omega)]
      exact ⟨rfl, rfl⟩
    · rw [if_pos h0]
      exact ⟨rfl, rfl⟩

/-- Witness for C10: two pending polls give two sleeps; a first-poll
finish gives zero sleeps and one fetch. -/
theorem wait_sleeps_after_every_fetch_witness :
    ((wait_for_complete (fun _ => snapPending) "B1" 2).sleeps = 2 ∧
     (wait_for_complete (fun _ => snapPending) "B1" 2).fetches = 2 ∧
     totalSleepSecs (wait_for_complete (fun _ => snapPending) "B1" 2) = 3 * 2) ∧
    ((wait_for_complete (fun _ => snapFinOk) "B1" 2).sleeps = 0 ∧
     (wait_for_complete (fun _ => snapFinOk) "B1" 2).fetches = 0 + 1) :=
  ⟨(wait_sleeps_after_every_fetch (fun _ => snapPending) "B1" 2).1 (by omega)
      (fun j hj => by show snapPending.status ≠ "finished"; decide),
   (wait_sleeps_after_every_fetch (fun _ => snapFinOk) "B1" 2).2 0 (by omega)
      (fun j hj => absurd hj (by omega)) rfl⟩

/-- C2: `create` raises a validation error before any transport call
(transport call count = 0) if and only if the request is missing the
`operations` field, or some operation is missing `method` or `path`, or
some operation has a method outside GET/POST/PUT/PATCH/DELETE; a
`KeyError` names the missing field and a `ValueError` carries the
offending method value. -/
theorem create_validates_before_transport (data : BatchData) :
    (((create data).2 = 0 ∧ (create data).1 ≠ CreateResult.posted) ↔
      (data.operations = none ∨
        ∃ ops, data.operations = some ops ∧ ops.any opViolatesB = true))
    ∧ (∀ s, (create data).1 = CreateResult.keyError s →
        (data.operations = none ∧ s = missingOperationsMsg) ∨
        (∃ ops, data.operations = some ops ∧
          ((s = missingMethodMsg ∧ ∃ op ∈ ops, op.method = none) ∨
           (s = missingPathMsg ∧ ∃ op ∈ ops, op.path = none))))
    ∧ (∀ s, (create data).1 = CreateResult.valueError s →
        ∃ ops, data.operations = some ops ∧
          ∃ m, s = invalidMethodMsg m ∧ m ∉ allowedMethods ∧
            ∃ op ∈ ops, op.method = some m) := by
  obtain ⟨o⟩ := data
  cases o with
  | none =>
    refine ⟨by simp [create], ?_, ?_⟩
    · intro s hs
      simp [create] at hs
      exact Or.inl ⟨rfl, hs.symm⟩
    · intro s hs
      simp [create] at hs
  | some ops =>
    cases hv : validateOps ops with
    | none =>
      have hany : ops.any opViolatesB = false := (validateOps_eq_none_iff ops).mp hv
      refine ⟨by
        simp [create, hv, hany]
        intro x hx
        by_contra hxx
        have hx2 : ops.any opViolatesB = true :=
          List.any_eq_true.mpr ⟨x, hx, by simpa using hxx⟩
        rw [hx2] at hany
        exact Bool.noConfusion hany, ?_, ?_⟩
      · intro s hs
        simp [create, hv] at hs
      · intro s hs
        simp [create, hv] at hs
    | some e =>
      have hcases := validateOps_some_cases ops e hv
      have hne : e ≠ CreateResult.posted := by
        rcases hcases with h | h | h
        · rw [h.1]; simp
        · rw [h.1]; simp
        · obtain ⟨m, hm, _⟩ := h
          rw [hm]; simp
      have hany : ops.any opViolatesB = true := by
        by_contra hany
        have h0 := (validateOps_eq_none_iff ops).mpr (by simpa using hany)
        rw [h0] at hv
        exact Option.noConfusion hv
      refine ⟨?_, ?_, ?_⟩
      · constructor
        · intro _
          exact Or.inr ⟨ops, rfl, hany⟩
        · intro _
          exact ⟨by simp [create, hv], by simp [create, hv, hne]⟩
      · intro s hs
        have he : e = CreateResult.keyError s := by simpa [create, hv] using hs
        rcases hcases with ⟨he2, hex⟩ | ⟨he2, hex⟩ | ⟨m, he2, hm, hex⟩
        · have hss : missingMethodMsg = s := by simpa using he2.symm.trans he
          exact Or.inr ⟨ops, rfl, Or.inl ⟨hss.symm, hex⟩⟩
        · have hss : missingPathMsg = s := by simpa using he2.symm.trans he
          exact Or.inr ⟨ops, rfl, Or.inr ⟨hss.symm, hex⟩⟩
        · exact absurd (he2.symm.trans he) (by simp)
      · intro s hs
        have he : e = CreateResult.valueError s := by simpa [create, hv] using hs
        rcases hcases with ⟨he2, _⟩ | ⟨he2, _⟩ | ⟨m, he2, hm, hex⟩
        · exact absurd (he2.symm.trans he) (by simp)
        · exact absurd (he2.symm.trans he) (by simp)
        · have hss : invalidMethodMsg m = s := by simpa using he2.symm.trans he
          exact ⟨ops, rfl, m, hss.symm, hm, hex⟩

/-- Witness for C2: a request whose single operation uses the disallowed
method FETCH is rejected with the `ValueError` naming FETCH, with zero
transport calls. -/
theorem create_validates_before_transport_witness :
    (create (BatchData.mk (some [Operation.mk (some "FETCH") (some "/lists")]))).1
      = CreateResult.valueError (invalidMethodMsg "FETCH") ∧
    (create (BatchData.mk (some [Operation.mk (some "FETCH") (some "/lists")]))).2 = 0 ∧
    (∃ ops,
      (BatchData.mk (some [Operation.mk (some "FETCH") (some "/lists")])).operations
        = some ops ∧
      ∃ m, invalidMethodMsg "FETCH" = invalidMethodMsg m ∧ m ∉ allowedMethods ∧
        ∃ op ∈ ops, op.method = some m) :=
  ⟨by decide, by decide,
    (create_validates_before_transport
      (BatchData.mk (some [Operation.mk (some "FETCH") (some "/lists")]))).2.2
      (invalidMethodMsg "FETCH") (by decide)⟩

/-- C7 counterexample: a request whose `operations` field is present but
empty is not treated as a validation failure — `create` reaches the
transport (`posted`, one transport call). -/
theorem create_empty_operations_counterexample :
    create (BatchData.mk (some [])) = (CreateResult.posted, 1) ∧
    ¬((create (BatchData.mk (some []))).1 ≠ CreateResult.posted ∧
      (create (BatchData.mk (some []))).2 = 0) := by
  refine ⟨rfl, ?_⟩
  intro h
  exact h.1 rfl

/-- C7 amended: for every request whose `operations` field is present but
is an empty sequence, `create` performs no validation failure and submits
the request to the transport (exactly one transport call). -/
theorem create_empty_operations_submits (data : BatchData)
    (h : data.operations = some []) :
    create data = (CreateResult.posted, 1) := by
  obtain ⟨o⟩ := data
  have h2 : o = some [] := h
  subst h2
  rfl

/-- Witness for the amended C7. -/
theorem create_empty_operations_submits_witness :
    create (BatchData.mk (some [])) = (CreateResult.posted, 1) :=
  create_empty_operations_submits (BatchData.mk (some [])) rfl

/-- C5: `wait_for_many` raises the aggregate error if and only if at
least one per-job wait raised; it returns normally whenever every per-job
wait returned, including when jobs merely exhausted their retry budget
(every normal return, whatever the final status, contributes no failure
entry). -/
theorem wait_for_many_raises_iff (fetchFor : String → Nat → BatchSnapshot)
    (batch_ids : List String) (retries : Nat) :
    (wait_for_many fetchFor batch_ids retries = none ↔
      ∀ bid ∈ batch_ids,
        waitErrMsg (wait_for_complete (fetchFor bid) bid retries).result = none)
    ∧ ((∀ bid ∈ batch_ids, ∃ b,
          (wait_for_complete (fetchFor bid) bid retries).result = WaitResult.ok b) →
        wait_for_many fetchFor batch_ids retries = none) := by
  have h1 : wait_for_many fetchFor batch_ids retries = none ↔
      failed_batches fetchFor batch_ids retries = [] := by
    constructor
    · intro h
      by_contra hne
      have hlen : 0 < (failed_batches fetchFor batch_ids retries).length :=
        List.length_pos.mpr hne
      simp [wait_for_many, hlen] at h
    · intro h
      simp [wait_for_many, h]
  have h2 : failed_batches fetchFor batch_ids retries = [] ↔
      ∀ bid ∈ batch_ids,
        waitErrMsg (wait_for_complete (fetchFor bid) bid retries).result = none := by
    simp [failed_batches]
  refine ⟨h1.trans h2, ?_⟩
  intro hok
  refine (h1.trans h2).mpr ?_
  intro bid hbid
  obtain ⟨b, hb⟩ := hok bid hbid
  rw [hb]
  rfl

/-- Witness for C5: three jobs that all finish cleanly at the first poll
yield a normal return. -/
theorem wait_for_many_raises_iff_witness :
    wait_for_many (fun _ _ => snapFinOk) ["A", "B", "C"] defaultRetries = none :=
  (wait_for_many_raises_iff (fun _ _ => snapFinOk) ["A", "B", "C"]
      defaultRetries).2
    (fun _ _ => ⟨snapFinOk, rfl⟩)

/-- C4: over ids [A, B, C] where waiting on A raises with message `ma`,
B returns normally, and C raises with message `mc`, every id is still
waited on in input order, and the aggregate error reports
"2/3 batches failed" followed by A's and C's failure descriptions, each
on its own line, in the order encountered, with no entry for B. -/
theorem wait_for_many_two_of_three_fail (fetchFor : String → Nat → BatchSnapshot)
    (retries : Nat) (ma mc : String)
    (hA : waitErrMsg (wait_for_complete (fetchFor "A") "A" retries).result = some ma)
    (hB : waitErrMsg (wait_for_complete (fetchFor "B") "B" retries).result = none)
    (hC : waitErrMsg (wait_for_complete (fetchFor "C") "C" retries).result = some mc) :
    wait_for_many_results fetchFor ["A", "B", "C"] retries =
      [("A", wait_for_complete (fetchFor "A") "A" retries),
       ("B", wait_for_complete (fetchFor "B") "B" retries),
       ("C", wait_for_complete (fetchFor "C") "C" retries)] ∧
    failed_batches fetchFor ["A", "B", "C"] retries = [ma, mc] ∧
    wait_for_many fetchFor ["A", "B", "C"] retries =
      some ("2/3 batches failed:\n" ++ ma ++ "\n" ++ mc) := by
  have hfail : failed_batches fetchFor ["A", "B", "C"] retries = [ma, mc] := by
    simp [failed_batches, hA, hB, hC]
  refine ⟨rfl, hfail, ?_⟩
  rw [wait_for_many]
  rw [hfail]
  rw [if_pos (by simp)]
  have hlen2 : ([ma, mc] : List String).length = 2 := rfl
  have hlen3 : (["A", "B", "C"] : List String).length = 3 := rfl
  rw [hlen2, hlen3]
  have h2 : toString (2 : Nat) = "2" := rfl
  have h3 : toString (3 : Nat) = "3" := rfl
  rw [h2, h3]
  have hint : String.intercalate "\n" [ma, mc] = (ma ++ "\n") ++ mc := rfl
  rw [hint]
  have hpre : "2" ++ "/" ++ "3" ++ " batches failed:\n" = "2/3 batches failed:\n" := rfl
  rw [hpre]
  simp [String.append_assoc]

/-- Witness for C4: jobs A and C finish with errors at the first poll
while B finishes cleanly. -/
theorem wait_for_many_two_of_three_fail_witness :
    wait_for_many fetchForABC ["A", "B", "C"] defaultRetries =
      some ("2/3 batches failed:\n" ++ jobFailedMsg "A" snapFinErr ++ "\n" ++
        jobFailedMsg "C" snapFinErr) :=
  (wait_for_many_two_of_three_fail fetchForABC defaultRetries
    (jobFailedMsg "A" snapFinErr) (jobFailedMsg "C" snapFinErr)
    rfl rfl rfl).2.2

/-- C9: `get` and `delete` set the client object's `batch_id` field to the
passed id and `operation_status` to `None`, and `all` resets both to
`None`; the update is the same for every transport (so it does not depend
on the transport call's outcome), `endpoint` — the only other field — is
untouched, and the returned value is the transport applied to a url built
from `endpoint` and the arguments only, never from the two mutated
fields. -/
theorem client_state_updates (st : BatchesState) (batch_id : String)
    (qp : List (String × String)) :
    (∀ {α : Type} (tr : String → List (String × String) → α),
      (batches_get tr st batch_id qp).1 =
        ⟨st.endpoint, some batch_id, none⟩ ∧
      (batches_get tr st batch_id qp).2 =
        tr (build_path st.endpoint [batch_id]) qp) ∧
    (∀ {α : Type} (tr : String → α),
      (batches_delete tr st batch_id).1 =
        ⟨st.endpoint, some batch_id, none⟩ ∧
      (batches_delete tr st batch_id).2 =
        tr (build_path st.endpoint [batch_id])) ∧
    (∀ {α : Type} (tr_it tr_g : String → List (String × String) → α)
        (get_all : Bool),
      (batches_all tr_it tr_g st get_all qp).1 =
        ⟨st.endpoint, none, none⟩ ∧
      (batches_all tr_it tr_g st get_all qp).2 =
        (if get_all then tr_it (build_path st.endpoint []) qp
         else tr_g (build_path st.endpoint []) qp)) ∧
    (∀ {α : Type} (tr : String → List (String × String) → α)
        (st' : BatchesState), st'.endpoint = st.endpoint →
      (batches_get tr st' batch_id qp).2 = (batches_get tr st batch_id qp).2) :=
  ⟨fun tr => ⟨rfl, rfl⟩,
   fun tr => ⟨rfl, rfl⟩,
   fun tr_it tr_g g => ⟨rfl, rfl⟩,
   fun tr st' h => by simp [batches_get, h]⟩

/-- Witness for C9: a `get` on a fresh client, and the same `get` on a
client whose two mutable fields hold stale values, return the same
response. -/
theorem client_state_updates_witness :
    (batches_get (fun u _ => u) initState "b42" []).1 =
      ⟨"batches", some "b42", none⟩ ∧
    (batches_get (fun u _ => u)
        (BatchesState.mk "batches" (some "stale") (some "stale")) "b42" []).2 =
      (batches_get (fun u _ => u) initState "b42" []).2 :=
  ⟨((client_state_updates initState "b42" []).1 (fun u _ => u)).1,
   (client_state_updates initState "b42" []).2.2.2 (fun u _ => u)
     (BatchesState.mk "batches" (some "stale") (some "stale")) rfl⟩

end Mailchimp3
